import Mathlib

/-!
Verification of the EVM transaction pipeline of this repository:
the raw transaction codec (`fromTransactionRaw` / `toTransactionRaw`),
the fee classification (`getTypedTransaction`) and the prepare pipeline
(`prepareCoinTransaction`, `prepareTokenTransaction`, `prepareTransaction`,
`prepareForSignOperation`).

JavaScript strings are modelled as `List Char`; `BigNumber` values occurring
in this pipeline are arbitrary-precision integers, modelled as `Int`, with the
decimal-string encoding (`BigNumber.toFixed` / `new BigNumber(string)`) made
explicit.  JavaScript numbers that may be `NaN` (the result of
`Number(undefined)`) are modelled by `JsNum`.  Optional / possibly-`undefined`
fields are modelled with `Option`; JavaScript truthiness is modelled per type:
a string is truthy iff non-empty, an object (`BigNumber`, `Buffer`) is truthy
whenever present, `undefined` and `null` are falsy.
-/

namespace LedgerEvm

/-- A JavaScript string, as a list of characters. -/
abbrev JsStr := List Char

/-- A JavaScript number that may be `NaN` (e.g. `Number(undefined)`). -/
inductive JsNum where
  | nan
  | num (n : Int)
  deriving Repr, DecidableEq

/-- `Number(x)` applied to a possibly-`undefined` number: `Number(undefined)`
is `NaN`, a number is unchanged. -/
def jsNumberOf : Option JsNum → JsNum
  | none => JsNum.nan
  | some v => v

/-! ### Decimal-string encoding (`BigNumber.toFixed` / `new BigNumber(s)`) -/

/-- The character of a decimal digit (`0 ≤ d < 10` in the intended domain). -/
def digitChar (d : Nat) : Char := Char.ofNat (48 + d)

/-- The numeric value of a decimal digit character. -/
def charVal (c : Char) : Nat := c.toNat - 48

/-- Base-10 digits of `n`, least significant first, with explicit fuel
(structurally recursive so that concrete evaluation reduces). -/
def natDecDigitsAux : Nat → Nat → List Nat
  | 0, _ => []
  | fuel + 1, n => if n = 0 then [] else n % 10 :: natDecDigitsAux fuel (n / 10)

/-- Base-10 digits of `n`, least significant first. -/
def natDecDigits (n : Nat) : List Nat := natDecDigitsAux n n

/-- Value of a least-significant-first digit list. -/
def decValue : List Nat → Nat
  | [] => 0
  | d :: ds => d + 10 * decValue ds

/-- Decimal rendering of a natural number (`BigNumber.toFixed` on a
non-negative integer value). -/
def natToDecChars (n : Nat) : JsStr :=
  if n = 0 then ['0'] else (natDecDigits n).reverse.map digitChar

/-- Decimal rendering of an integer (`BigNumber.toFixed` on an integer
value). -/
def intToDecChars (i : Int) : JsStr :=
  if i < 0 then '-' :: natToDecChars i.natAbs else natToDecChars i.toNat

/-- Parse of a decimal natural string (the integer-valued fragment of
`new BigNumber(s)`). -/
def parseNatChars (cs : JsStr) : Nat :=
  decValue ((cs.map charVal).reverse)

/-- Parse of a decimal integer string (the integer-valued fragment of
`new BigNumber(s)`). -/
def parseDecChars (cs : JsStr) : Int :=
  match cs with
  | [] => 0
  | c :: rest => if c = '-' then -(parseNatChars rest : Int) else (parseNatChars (c :: rest) : Int)

/-! ### Hex encoding (`Buffer.toString("hex")` / `Buffer.from(s, "hex")`) -/

/-- Lower-case hex digit character for `d < 16`. -/
def hexDigitChar (d : Nat) : Char :=
  if d < 10 then digitChar d else Char.ofNat (87 + d)

/-- Hex rendering of one byte, two characters. -/
def byteToHexChars (b : Nat) : List Char :=
  [hexDigitChar (b / 16), hexDigitChar (b % 16)]

/-- `Buffer.toString("hex")`: hex rendering of a byte sequence. -/
def bytesToHex : List Nat → JsStr
  | [] => []
  | b :: bs => byteToHexChars b ++ bytesToHex bs

/-- Numeric value of one hex digit character. -/
def hexCharVal (c : Char) : Nat :=
  if 97 ≤ c.toNat then c.toNat - 87 else c.toNat - 48

/-- `Buffer.from(s, "hex")`: parse a hex string back to bytes, consuming
character pairs. -/
def hexToBytes : JsStr → List Nat
  | c1 :: c2 :: rest => (hexCharVal c1 * 16 + hexCharVal c2) :: hexToBytes rest
  | _ => []

/-! ### Round-trip lemmas for the two encodings -/

theorem decValue_natDecDigitsAux (fuel : Nat) :
    ∀ n : Nat, n ≤ fuel → decValue (natDecDigitsAux fuel n) = n := by
  induction fuel with
  | zero => intro n hn; interval_cases n; simp [natDecDigitsAux, decValue]
  | succ f ih =>
    intro n hn
    by_cases h0 : n = 0
    · simp [natDecDigitsAux, h0, decValue]
    · have hdiv : n / 10 ≤ f := by omega
      simp only [natDecDigitsAux, h0, if_false, decValue, ih (n / 10) hdiv]
      omega

theorem natDecDigitsAux_lt (fuel : Nat) :
    ∀ n : Nat, ∀ d ∈ natDecDigitsAux fuel n, d < 10 := by
  induction fuel with
  | zero => intro n d hd; simp [natDecDigitsAux] at hd
  | succ f ih =>
    intro n d hd
    by_cases h0 : n = 0
    · simp [natDecDigitsAux, h0] at hd
    · simp only [natDecDigitsAux, h0, if_false, List.mem_cons] at hd
      rcases hd with h | h
      · omega
      · exact ih (n / 10) d h

theorem charVal_digitChar (d : Nat) (hd : d < 10) : charVal (digitChar d) = d := by
  interval_cases d <;> decide

theorem digitChar_ne_dash (d : Nat) (hd : d < 10) : digitChar d ≠ '-' := by
  interval_cases d <;> decide

theorem parseNat_natToDecChars (n : Nat) : parseNatChars (natToDecChars n) = n := by
  by_cases h0 : n = 0
  · simp [h0, natToDecChars, parseNatChars, charVal, decValue]
  · have hmap : (natDecDigits n).map (fun d => charVal (digitChar d)) = natDecDigits n := by
      have := List.map_congr_left (l := natDecDigits n)
        (f := fun d => charVal (digitChar d)) (g := id)
        (fun d hd => charVal_digitChar d (natDecDigitsAux_lt n n d hd))
      simpa using this
    calc parseNatChars (natToDecChars n)
        = decValue ((((natDecDigits n).reverse.map digitChar).map charVal).reverse) := by
          simp [natToDecChars, h0, parseNatChars]
      _ = decValue (natDecDigits n) := by
          rw [List.map_map, List.map_reverse, List.reverse_reverse]
          exact congrArg decValue hmap
      _ = n := decValue_natDecDigitsAux n n le_rfl

theorem natDecDigits_ne_nil (n : Nat) (h0 : n ≠ 0) : natDecDigits n ≠ [] := by
  cases n with
  | zero => exact absurd rfl h0
  | succ m => simp [natDecDigits, natDecDigitsAux]

theorem natToDecChars_ne_nil (n : Nat) : natToDecChars n ≠ [] := by
  by_cases h0 : n = 0
  · simp [natToDecChars, h0]
  · simp only [natToDecChars, h0, if_false]
    intro h
    rw [List.map_eq_nil_iff, List.reverse_eq_nil_iff] at h
    exact natDecDigits_ne_nil n h0 h

theorem natToDecChars_no_dash (n : Nat) : ∀ c ∈ natToDecChars n, c ≠ '-' := by
  intro c hc
  by_cases h0 : n = 0
  · simp [natToDecChars, h0] at hc
    simp [hc]
  · simp only [natToDecChars, h0, if_false, List.mem_map, List.mem_reverse] at hc
    obtain ⟨d, hd, rfl⟩ := hc
    exact digitChar_ne_dash d (natDecDigitsAux_lt n n d hd)

theorem parseDec_natToDecChars (n : Nat) : parseDecChars (natToDecChars n) = (n : Int) := by
  cases h : natToDecChars n with
  | nil => exact absurd h (natToDecChars_ne_nil n)
  | cons c rest =>
    have hc : c ≠ '-' := natToDecChars_no_dash n c (by rw [h]; exact List.mem_cons_self c rest)
    have : parseDecChars (c :: rest) = (parseNatChars (c :: rest) : Int) := by
      simp [parseDecChars, hc]
    rw [this, ← h, parseNat_natToDecChars]

theorem parseDec_intToDecChars (i : Int) : parseDecChars (intToDecChars i) = i := by
  by_cases hneg : i < 0
  · have : parseDecChars (intToDecChars i)
        = -(parseNatChars (natToDecChars i.natAbs) : Int) := by
      simp [intToDecChars, hneg, parseDecChars]
    rw [this, parseNat_natToDecChars]
    omega
  · have : intToDecChars i = natToDecChars i.toNat := by simp [intToDecChars, hneg]
    rw [this, parseDec_natToDecChars]
    omega

theorem intToDecChars_ne_nil (i : Int) : intToDecChars i ≠ [] := by
  by_cases hneg : i < 0
  · simp [intToDecChars, hneg]
  · simp [intToDecChars, hneg, natToDecChars_ne_nil]

theorem hexCharVal_hexDigitChar (d : Nat) (hd : d < 16) :
    hexCharVal (hexDigitChar d) = d := by
  interval_cases d <;> decide

theorem hexToBytes_bytesToHex (bs : List Nat) (hbs : ∀ b ∈ bs, b < 256) :
    hexToBytes (bytesToHex bs) = bs := by
  induction bs with
  | nil => rfl
  | cons b rest ih =>
    have hb : b < 256 := hbs b (List.mem_cons_self b rest)
    have hhi : b / 16 < 16 := by omega
    have hlo : b % 16 < 16 := by omega
    have : bytesToHex (b :: rest)
        = hexDigitChar (b / 16) :: hexDigitChar (b % 16) :: bytesToHex rest := by
      simp [bytesToHex, byteToHexChars]
    rw [this]
    simp only [hexToBytes, hexCharVal_hexDigitChar _ hhi, hexCharVal_hexDigitChar _ hlo]
    rw [ih (fun x hx => hbs x (List.mem_cons_of_mem b hx))]
    congr 1
    omega

theorem bytesToHex_ne_nil (bs : List Nat) (h : bs ≠ []) : bytesToHex bs ≠ [] := by
  cases bs with
  | nil => exact absurd rfl h
  | cons b rest => simp [bytesToHex, byteToHexChars]

/-! ### Data model

The in-memory `Transaction` and the wire-safe `TransactionRaw` of the EVM
family, with the fields this pipeline reads and writes.  `amount`,
`gasLimit`, `gasPrice`, `maxFeePerGas`, `maxPriorityFeePerGas` are
`BigNumber` values (arbitrary-precision integers in this pipeline's domain);
on the raw form they are decimal strings.  `data` is a `Buffer` (byte
sequence); on the raw form it is a hex string.  The `type` discriminator is a
JavaScript number on both forms and may be absent. -/

structure Transaction where
  family : JsStr
  mode : JsStr
  recipient : JsStr
  amount : Int
  useAllAmount : Bool
  subAccountId : Option JsStr
  chainId : Int
  nonce : Int
  gasLimit : Int
  feesStrategy : Option JsStr
  type : Option JsNum
  data : Option (List Nat)
  gasPrice : Option Int
  maxFeePerGas : Option Int
  maxPriorityFeePerGas : Option Int
  deriving Repr, DecidableEq

/-- The wire-safe raw form: numeric fields as decimal strings, binary payload
as a hex string, optional fields present only when the source field was
carried through. -/
structure TransactionRaw where
  family : JsStr
  mode : JsStr
  recipient : JsStr
  amount : JsStr
  useAllAmount : Bool
  subAccountId : Option JsStr
  chainId : Int
  nonce : Int
  gasLimit : JsStr
  feesStrategy : Option JsStr
  type : Option JsNum
  data : Option JsStr
  gasPrice : Option JsStr
  maxFeePerGas : Option JsStr
  maxPriorityFeePerGas : Option JsStr
  deriving Repr, DecidableEq

/-- Network-supplied fee snapshot: each field is a `BigNumber` or `null`. -/
structure FeeData where
  gasPrice : Option Int
  maxFeePerGas : Option Int
  maxPriorityFeePerGas : Option Int
  deriving Repr, DecidableEq

/-- A sub-account record as seen by this pipeline: its id, its `type` tag
(the pipeline tests it against `"TokenAccount"`), its balance, and the token
contract address (`subAccount.token.contractAddress`). -/
structure SubAccount where
  id : JsStr
  saType : JsStr
  balance : Int
  tokenContractAddress : JsStr
  deriving Repr, DecidableEq

/-- An account record as seen by this pipeline: receiving address, balance
and sub-accounts. -/
structure Account where
  freshAddress : JsStr
  balance : Int
  subAccounts : List SubAccount
  deriving Repr, DecidableEq

/-- The `type` tag of token sub-accounts. -/
def tokenAccountType : JsStr := "TokenAccount".data

/-- The four common fields handled by the shared common codec. -/
structure TransactionCommon where
  amount : Int
  recipient : JsStr
  useAllAmount : Bool
  subAccountId : Option JsStr
  deriving Repr, DecidableEq

/-- Modelled from the spec: `fromTransactionCommonRaw` is imported from the
shared `transaction/common` module, which is not among the sources; per the
spec, numeric fields convert via exact decimal-string encoding and the other
common fields are carried through unchanged. -/
def fromTransactionCommonRaw (r : TransactionRaw) : TransactionCommon :=
  { amount := parseDecChars r.amount
    recipient := r.recipient
    useAllAmount := r.useAllAmount
    subAccountId := r.subAccountId }

/-- The four common fields on the raw (string) side. -/
structure TransactionCommonRaw where
  amount : JsStr
  recipient : JsStr
  useAllAmount : Bool
  subAccountId : Option JsStr
  deriving Repr, DecidableEq

/-- Modelled from the spec: `toTransactionCommonRaw` is imported from the
shared `transaction/common` module, which is not among the sources; per the
spec, numeric fields convert via exact decimal-string encoding and the other
common fields are carried through unchanged. -/
def toTransactionCommonRaw (tx : Transaction) : TransactionCommonRaw :=
  { amount := intToDecChars tx.amount
    recipient := tx.recipient
    useAllAmount := tx.useAllAmount
    subAccountId := tx.subAccountId }

/-- `if (rawTx.f) tx.f = new BigNumber(rawTx.f)`: a possibly-absent decimal
string field is parsed only when truthy (present and non-empty). -/
def parseOptionalBigNumber (o : Option JsStr) : Option Int :=
  match o with
  | some s => if s.isEmpty then none else some (parseDecChars s)
  | none => none

/-- `if (rawTx.data) tx.data = Buffer.from(rawTx.data, "hex")`: a
possibly-absent hex string field is parsed only when truthy (present and
non-empty). -/
def parseOptionalData (o : Option JsStr) : Option (List Nat) :=
  match o with
  | some s => if s.isEmpty then none else some (hexToBytes s)
  | none => none

/-! ### Raw transaction codec (`fromTransactionRaw` / `toTransactionRaw`) -/

/-- `fromTransactionRaw` of the EVM family: raw wire form to in-memory
transaction.  `type: Number(rawTx.type)` is taken verbatim from the source:
on an absent raw `type` this evaluates `Number(undefined)`, i.e. `NaN`.  The
conditional assignments of `data`, `gasPrice`, `maxFeePerGas`,
`maxPriorityFeePerGas` are guarded by string truthiness. -/
def fromTransactionRaw (rawTx : TransactionRaw) : Transaction :=
  let common := fromTransactionCommonRaw rawTx
  { family := rawTx.family
    mode := rawTx.mode
    recipient := common.recipient
    amount := common.amount
    useAllAmount := common.useAllAmount
    subAccountId := common.subAccountId
    chainId := rawTx.chainId
    nonce := rawTx.nonce
    gasLimit := parseDecChars rawTx.gasLimit
    feesStrategy := rawTx.feesStrategy
    type := some (jsNumberOf rawTx.type)
    data := parseOptionalData rawTx.data
    gasPrice := parseOptionalBigNumber rawTx.gasPrice
    maxFeePerGas := parseOptionalBigNumber rawTx.maxFeePerGas
    maxPriorityFeePerGas := parseOptionalBigNumber rawTx.maxPriorityFeePerGas }

/-- `toTransactionRaw` of the EVM family: in-memory transaction to raw wire
form.  The conditional assignments are guarded by object truthiness: a
present `Buffer` or `BigNumber` is always truthy (even an empty buffer or a
zero value), so each optional field is stringified exactly when present. -/
def toTransactionRaw (tx : Transaction) : TransactionRaw :=
  let common := toTransactionCommonRaw tx
  { family := tx.family
    mode := tx.mode
    recipient := common.recipient
    amount := common.amount
    useAllAmount := common.useAllAmount
    subAccountId := common.subAccountId
    chainId := tx.chainId
    nonce := tx.nonce
    gasLimit := intToDecChars tx.gasLimit
    feesStrategy := tx.feesStrategy
    type := tx.type
    data := tx.data.map bytesToHex
    gasPrice := tx.gasPrice.map intToDecChars
    maxFeePerGas := tx.maxFeePerGas.map intToDecChars
    maxPriorityFeePerGas := tx.maxPriorityFeePerGas.map intToDecChars }

/-! ### Fee classification (`getTypedTransaction`) -/

/-- `getTypedTransaction`, including its in-place mutation of the input: the
source runs `delete transaction.gasPrice` (fee-market branch) or
`delete transaction.maxFeePerGas; delete transaction.maxPriorityFeePerGas`
(legacy branch) on the caller's object before spreading it.  The first
component is the returned transaction, the second is the state of the input
object after the call. -/
def getTypedTransactionMut (transaction : Transaction) (feeData : FeeData) :
    Transaction × Transaction :=
  if feeData.maxFeePerGas.isSome && feeData.maxPriorityFeePerGas.isSome then
    let mutated := { transaction with gasPrice := none }
    ({ mutated with
        maxFeePerGas := feeData.maxFeePerGas
        maxPriorityFeePerGas := feeData.maxPriorityFeePerGas
        type := some (JsNum.num 2) },
     mutated)
  else
    let mutated := { transaction with maxFeePerGas := none, maxPriorityFeePerGas := none }
    ({ mutated with
        gasPrice := some (feeData.gasPrice.getD 0)
        type := some (JsNum.num 0) },
     mutated)

/-- The value returned by `getTypedTransaction`. -/
def getTypedTransaction (transaction : Transaction) (feeData : FeeData) : Transaction :=
  (getTypedTransactionMut transaction feeData).1

/-! ### Pipeline helpers -/

/-- `getTransactionData`: builds the ERC-20 `transfer(recipient, amount)`
calldata.  The ABI encoding itself is performed by the external ethers.js
library, passed here as the parameter `encodeFunctionData` (a hex string with
a `0x` prefix); the source strips the prefix and hex-decodes, returning
`undefined` when the encoder yields a falsy string. -/
def getTransactionData (encodeFunctionData : JsStr → Int → JsStr)
    (transaction : Transaction) : Option (List Nat) :=
  let data := encodeFunctionData transaction.recipient transaction.amount
  if data.isEmpty then none else some (hexToBytes (data.drop 2))

/-- Modelled from the spec: `findSubAccountById` is imported from the shared
account module, which is not among the sources; per the spec it is the account
store's sub-account lookup by id. -/
def findSubAccountById (account : Account) (id : JsStr) : Option SubAccount :=
  account.subAccounts.find? (fun sa => decide (sa.id = id))

/-- Modelled from the spec: `validateRecipient` lives in
`getTransactionStatus`, which is not among the sources.  Per the spec it
fails with `RecipientRequired` if the recipient is empty,
`InvalidAddressFormat` if it fails the chain's address-format test (the test
itself is chain-specific and passed as a parameter), and
`RecipientIsSenderAddress` if it equals the account's own receiving address;
the result is the field-error mapping (advisory warnings are dropped by the
callers, which destructure only the first component). -/
def validateRecipient (isValidAddress : JsStr → Bool) (account : Account)
    (transaction : Transaction) : List JsStr :=
  if transaction.recipient.isEmpty then ["RecipientRequired".data]
  else if !isValidAddress transaction.recipient then ["InvalidAddressFormat".data]
  else if transaction.recipient = account.freshAddress then ["RecipientIsSenderAddress".data]
  else []

/-- Modelled from the spec: `validateAmount` lives in
`getTransactionStatus`, which is not among the sources.  Per the spec it
fails with `NotEnoughBalance` if the total spend exceeds the spendable
balance of the account-like record it is given, and `AmountRequired` if the
transaction's amount is zero and `useAllAmount` is not set. -/
def validateAmount (balance : Int) (transaction : Transaction)
    (totalSpent : Int) : List JsStr :=
  if totalSpent > balance then ["NotEnoughBalance".data]
  else if transaction.amount = 0 ∧ transaction.useAllAmount = false then ["AmountRequired".data]
  else []

/-! ### Prepare pipeline

The two network boundary calls (`getFeesEstimation`, `getGasEstimation`) and
the fee computation `getEstimatedFees` (from `logic`, not among the sources)
are kept abstract: the fetched `FeeData` snapshot and the two functions are
parameters, universally quantified in every theorem below. -/

/-- `prepareCoinTransaction`: base-asset transfer preparation. -/
def prepareCoinTransaction (getGasEstimation : Account → Transaction → Int)
    (getEstimatedFees : Transaction → Int) (isValidAddress : JsStr → Bool)
    (account : Account) (typedTransaction : Transaction) : Transaction :=
  let estimatedFees := getEstimatedFees typedTransaction
  let amount :=
    if typedTransaction.useAllAmount then account.balance - estimatedFees
    else typedTransaction.amount
  let totalSpent := amount + estimatedFees
  let protoTransaction := { typedTransaction with amount := amount }
  let recipientErrors := validateRecipient isValidAddress account typedTransaction
  let amountErrors := validateAmount account.balance protoTransaction totalSpent
  if amountErrors.length ≠ 0 ∨ recipientErrors.length ≠ 0 then typedTransaction
  else
    let gasLimit := getGasEstimation account protoTransaction
    { protoTransaction with amount := amount, gasLimit := gasLimit }

/-- `prepareTokenTransaction`: token transfer preparation.  Note that the
success branch returns `{ ...typedTransaction, data, gasLimit }`: the
transaction's own `amount` field is left as it was on the typed draft; the
computed token amount only flows into the calldata and the validation. -/
def prepareTokenTransaction (encodeFunctionData : JsStr → Int → JsStr)
    (getGasEstimation : Account → Transaction → Int) (isValidAddress : JsStr → Bool)
    (account : Account) (tokenAccount : SubAccount)
    (typedTransaction : Transaction) : Transaction :=
  let amount :=
    if typedTransaction.useAllAmount then tokenAccount.balance
    else typedTransaction.amount
  let protoTransaction := { typedTransaction with amount := 0 }
  let recipientErrors := validateRecipient isValidAddress account protoTransaction
  let amountErrors := validateAmount tokenAccount.balance protoTransaction amount
  if amountErrors.length ≠ 0 ∨ recipientErrors.length ≠ 0 then typedTransaction
  else
    let data := getTransactionData encodeFunctionData { typedTransaction with amount := amount }
    let gasLimit := getGasEstimation account
      { typedTransaction with recipient := tokenAccount.tokenContractAddress, data := data }
    { typedTransaction with data := data, gasLimit := gasLimit }

/-- `prepareTransaction`: fetches fee data (the snapshot is the `feeData`
parameter), resolves the sub-account, classifies the draft, and dispatches to
the token or coin path. -/
def prepareTransaction (encodeFunctionData : JsStr → Int → JsStr)
    (getGasEstimation : Account → Transaction → Int)
    (getEstimatedFees : Transaction → Int) (isValidAddress : JsStr → Bool)
    (feeData : FeeData) (account : Account) (transaction : Transaction) : Transaction :=
  let subAccount := findSubAccountById account (transaction.subAccountId.getD [])
  let typedTransaction := getTypedTransaction transaction feeData
  match subAccount with
  | some sa =>
      if sa.saType = tokenAccountType then
        prepareTokenTransaction encodeFunctionData getGasEstimation isValidAddress
          account sa typedTransaction
      else
        prepareCoinTransaction getGasEstimation getEstimatedFees isValidAddress
          account typedTransaction
  | none =>
      prepareCoinTransaction getGasEstimation getEstimatedFees isValidAddress
        account typedTransaction

/-- `prepareTransaction` together with the state of the caller's transaction
object after the call (the classification step mutates it in place; no later
step mutates it). -/
def prepareTransactionMut (encodeFunctionData : JsStr → Int → JsStr)
    (getGasEstimation : Account → Transaction → Int)
    (getEstimatedFees : Transaction → Int) (isValidAddress : JsStr → Bool)
    (feeData : FeeData) (account : Account) (transaction : Transaction) :
    Transaction × Transaction :=
  (prepareTransaction encodeFunctionData getGasEstimation getEstimatedFees
      isValidAddress feeData account transaction,
   (getTypedTransactionMut transaction feeData).2)

/-- `prepareForSignOperation`: rewrites the recipient to the token contract
address for token transfers, returns the transaction unchanged otherwise. -/
def prepareForSignOperation (account : Account) (transaction : Transaction) : Transaction :=
  match findSubAccountById account (transaction.subAccountId.getD []) with
  | some subAccount =>
      if subAccount.saType = tokenAccountType then
        { transaction with recipient := subAccount.tokenContractAddress }
      else transaction
  | none => transaction

/-! ### Generic helper lemmas -/

theorem isEmpty_false_of_ne_nil {α : Type} {l : List α} (h : l ≠ []) :
    l.isEmpty = false := by
  cases l with
  | nil => exact absurd rfl h
  | cons a as => rfl

theorem parseOptionalBigNumber_map (o : Option Int) :
    parseOptionalBigNumber (o.map intToDecChars) = o := by
  cases o with
  | none => rfl
  | some v =>
    simp only [Option.map_some', parseOptionalBigNumber,
      isEmpty_false_of_ne_nil (intToDecChars_ne_nil v)]
    simp [parseDec_intToDecChars]

theorem parseOptionalData_map (o : Option (List Nat))
    (h : o = none ∨ ∃ bs, o = some bs ∧ bs ≠ [] ∧ ∀ b ∈ bs, b < 256) :
    parseOptionalData (o.map bytesToHex) = o := by
  rcases h with rfl | ⟨bs, rfl, hne, hlt⟩
  · rfl
  · simp only [Option.map_some', parseOptionalData,
      isEmpty_false_of_ne_nil (bytesToHex_ne_nil bs hne)]
    simp [hexToBytes_bytesToHex bs hlt]

theorem find?_none_of_no_empty_id (l : List SubAccount)
    (h : ∀ sa ∈ l, sa.id ≠ []) :
    l.find? (fun sa => decide (sa.id = ([] : JsStr))) = none := by
  induction l with
  | nil => rfl
  | cons a as ih =>
    have ha : decide (a.id = ([] : JsStr)) = false :=
      decide_eq_false (h a (List.mem_cons_self a as))
    simp only [List.find?_cons, ha]
    exact ih (fun sa hsa => h sa (List.mem_cons_of_mem a hsa))

/-! ### Claim C1 — codec round trip -/

/-- A transaction with an empty `data` buffer: the round trip drops the
field. -/
def c1EmptyDataTx : Transaction :=
  { family := "evm".data, mode := "send".data, recipient := "0xdest".data
    amount := 3, useAllAmount := false, subAccountId := none
    chainId := 1, nonce := 0, gasLimit := 21, feesStrategy := none
    type := some (JsNum.num 0), data := some []
    gasPrice := some 5, maxFeePerGas := none, maxPriorityFeePerGas := none }

/-- C1 (counterexample): the claim quantifies over every valid `Transaction`,
but a transaction whose `data` field is present as an empty buffer does not
round-trip: `toTransactionRaw` serializes the empty buffer (a truthy object)
to the empty hex string, which is falsy on parse, so `fromTransactionRaw`
leaves `data` absent. -/
theorem c1_round_trip_counterexample :
    c1EmptyDataTx.data = some [] ∧
    fromTransactionRaw (toTransactionRaw c1EmptyDataTx) ≠ c1EmptyDataTx := by
  constructor
  · rfl
  · decide

/-- C1 (amended): `fromTransactionRaw (toTransactionRaw tx) = tx` field-wise
— decimal numeric fields exactly preserved, binary payload round-tripping
through hex, absent optional fee fields staying absent and present ones
preserved exactly — for every transaction whose `type` field is present and
whose `data` payload, if present, is a non-empty byte buffer. -/
theorem c1_round_trip (tx : Transaction)
    (htype : tx.type.isSome = true)
    (hdata : tx.data = none ∨ ∃ bs, tx.data = some bs ∧ bs ≠ [] ∧ ∀ b ∈ bs, b < 256) :
    fromTransactionRaw (toTransactionRaw tx) = tx := by
  obtain ⟨fam, mo, rcpt, amt, uaa, said, cid, non, gl, fs, ty, dat, gp, mf, mpf⟩ := tx
  obtain ⟨v, rfl⟩ : ∃ v, ty = some v := by
    cases ty with
    | none => simp at htype
    | some v => exact ⟨v, rfl⟩
  simp only [fromTransactionRaw, toTransactionRaw, fromTransactionCommonRaw,
    toTransactionCommonRaw, jsNumberOf, Transaction.mk.injEq, parseDec_intToDecChars,
    parseOptionalBigNumber_map, true_and, and_true]
  exact parseOptionalData_map dat hdata

/-- A fully-populated transaction for the round-trip witness. -/
def c1WitnessTx : Transaction :=
  { family := "evm".data, mode := "send".data, recipient := "0xdest".data
    amount := 1234567890123456789, useAllAmount := true, subAccountId := some "sub".data
    chainId := 137, nonce := 9, gasLimit := 21000, feesStrategy := some "fast".data
    type := some (JsNum.num 2), data := some [169, 5, 156, 187, 0, 255]
    gasPrice := none, maxFeePerGas := some 48946528178, maxPriorityFeePerGas := some 2 }

theorem c1_round_trip_witness :
    fromTransactionRaw (toTransactionRaw c1WitnessTx) = c1WitnessTx :=
  c1_round_trip c1WitnessTx rfl
    (Or.inr ⟨[169, 5, 156, 187, 0, 255], rfl, by decide, by decide⟩)

/-! ### Claim C10 — empty data payload at the codec boundary -/

/-- C10: a transaction whose `data` field is an empty byte buffer serializes
to a raw form whose `data` is the empty string; parsing a raw form whose
`data` is the empty string yields a transaction with no `data` field; hence
an empty data payload does not survive the round trip as an empty buffer. -/
theorem c10_empty_data_boundary (tx : Transaction) (r : TransactionRaw) :
    (tx.data = some [] → (toTransactionRaw tx).data = some ([] : JsStr)) ∧
    (r.data = some ([] : JsStr) → (fromTransactionRaw r).data = none) ∧
    (tx.data = some [] → (fromTransactionRaw (toTransactionRaw tx)).data = none) := by
  refine ⟨?_, ?_, ?_⟩ <;> intro h
  · simp [toTransactionRaw, h, bytesToHex]
  · simp [fromTransactionRaw, parseOptionalData, h]
  · simp [fromTransactionRaw, toTransactionRaw, parseOptionalData, h, bytesToHex]

/-- A raw form whose `data` is the empty string. -/
def c10Raw : TransactionRaw :=
  { family := "evm".data, mode := "send".data, recipient := "0xdest".data
    amount := "3".data, useAllAmount := false, subAccountId := none
    chainId := 1, nonce := 0, gasLimit := "21".data, feesStrategy := none
    type := some (JsNum.num 0), data := some []
    gasPrice := some "5".data, maxFeePerGas := none, maxPriorityFeePerGas := none }

theorem c10_empty_data_boundary_witness :
    (toTransactionRaw c1EmptyDataTx).data = some ([] : JsStr) ∧
    (fromTransactionRaw c10Raw).data = none ∧
    (fromTransactionRaw (toTransactionRaw c1EmptyDataTx)).data = none :=
  ⟨(c10_empty_data_boundary c1EmptyDataTx c10Raw).1 rfl,
   (c10_empty_data_boundary c1EmptyDataTx c10Raw).2.1 rfl,
   (c10_empty_data_boundary c1EmptyDataTx c10Raw).2.2 rfl⟩

/-! ### Claim C6 — default of the `type` discriminator on parse -/

/-- A raw form with no `type` field. -/
def c6RawNoType : TransactionRaw :=
  { family := "evm".data, mode := "send".data, recipient := "0xdest".data
    amount := "3".data, useAllAmount := false, subAccountId := none
    chainId := 1, nonce := 0, gasLimit := "21".data, feesStrategy := none
    type := none, data := none
    gasPrice := some "5".data, maxFeePerGas := none, maxPriorityFeePerGas := none }

/-- C6 (code bug): the source comments that an absent raw `type` makes the
transaction "considered legacy and therefore type 0", and the spec states the
discriminator defaults to 0, but the code computes `Number(rawTx.type)`,
which on `undefined` is `NaN`, not `0`.  When the field is present it is
preserved. -/
theorem c6_absent_type_is_nan_not_zero :
    (fromTransactionRaw c6RawNoType).type = some JsNum.nan ∧
    JsNum.nan ≠ JsNum.num 0 ∧
    (fromTransactionRaw { c6RawNoType with type := some (JsNum.num 2) }).type
      = some (JsNum.num 2) := by decide

/-! ### Claim C3 — fee classification is exhaustive and exclusive -/

/-- C3: for every `FeeData`, `getTypedTransaction` yields exactly one of the
two fee shapes: with both fee-market fields on the snapshot, type 2 with
those fields set and `gasPrice` absent; otherwise type 0 with `gasPrice` set
(defaulting to zero) and both fee-market fields absent — never a mix. -/
theorem c3_classification (tx : Transaction) (fd : FeeData) :
    ((fd.maxFeePerGas.isSome = true ∧ fd.maxPriorityFeePerGas.isSome = true) →
        (getTypedTransaction tx fd).type = some (JsNum.num 2) ∧
        (getTypedTransaction tx fd).maxFeePerGas = fd.maxFeePerGas ∧
        (getTypedTransaction tx fd).maxPriorityFeePerGas = fd.maxPriorityFeePerGas ∧
        (getTypedTransaction tx fd).gasPrice = none) ∧
    (¬(fd.maxFeePerGas.isSome = true ∧ fd.maxPriorityFeePerGas.isSome = true) →
        (getTypedTransaction tx fd).type = some (JsNum.num 0) ∧
        (getTypedTransaction tx fd).gasPrice = some (fd.gasPrice.getD 0) ∧
        (getTypedTransaction tx fd).maxFeePerGas = none ∧
        (getTypedTransaction tx fd).maxPriorityFeePerGas = none) ∧
    (((getTypedTransaction tx fd).type = some (JsNum.num 0) ∧
        (getTypedTransaction tx fd).gasPrice.isSome = true ∧
        (getTypedTransaction tx fd).maxFeePerGas = none ∧
        (getTypedTransaction tx fd).maxPriorityFeePerGas = none) ∨
      ((getTypedTransaction tx fd).type = some (JsNum.num 2) ∧
        (getTypedTransaction tx fd).maxFeePerGas.isSome = true ∧
        (getTypedTransaction tx fd).maxPriorityFeePerGas.isSome = true ∧
        (getTypedTransaction tx fd).gasPrice = none)) := by
  by_cases h : (fd.maxFeePerGas.isSome && fd.maxPriorityFeePerGas.isSome) = true
  · have h2 : fd.maxFeePerGas.isSome = true ∧ fd.maxPriorityFeePerGas.isSome = true := by
      simpa using h
    refine ⟨fun _ => ?_, fun hc => absurd h2 hc, Or.inr ?_⟩ <;>
      simp [getTypedTransaction, getTypedTransactionMut, h, h2.1, h2.2]
  · have hf : (fd.maxFeePerGas.isSome && fd.maxPriorityFeePerGas.isSome) = false := by
      revert h
      cases fd.maxFeePerGas.isSome && fd.maxPriorityFeePerGas.isSome <;> simp
    refine ⟨fun hc => absurd (by simp [hc.1, hc.2] :
        (fd.maxFeePerGas.isSome && fd.maxPriorityFeePerGas.isSome) = true) h,
      fun _ => ?_, Or.inl ?_⟩ <;>
      simp [getTypedTransaction, getTypedTransactionMut, hf]

/-- A bare legacy transaction used by classification witnesses. -/
def c3Tx : Transaction :=
  { family := "evm".data, mode := "send".data, recipient := "0xdest".data
    amount := 3, useAllAmount := false, subAccountId := none
    chainId := 1, nonce := 0, gasLimit := 21, feesStrategy := none
    type := some (JsNum.num 0), data := none
    gasPrice := some 5, maxFeePerGas := none, maxPriorityFeePerGas := none }

theorem c3_classification_witness :
    (getTypedTransaction c3Tx { gasPrice := some 3, maxFeePerGas := some 7, maxPriorityFeePerGas := some 1 }).type
      = some (JsNum.num 2) ∧
    (getTypedTransaction c3Tx { gasPrice := none, maxFeePerGas := none, maxPriorityFeePerGas := none }).type
      = some (JsNum.num 0) :=
  ⟨((c3_classification c3Tx _).1 (by exact ⟨rfl, rfl⟩)).1,
   ((c3_classification c3Tx _).2.1 (by simp)).1⟩

/-! ### Sample external collaborators for concrete evaluations -/

/-- A concrete stand-in for the ethers.js ABI encoder. -/
def sampleEncode : JsStr → Int → JsStr := fun _ _ => "0xa9059cbb00ff".data

/-- A concrete stand-in for the network gas estimation. -/
def sampleGasEstimation : Account → Transaction → Int := fun _ _ => 60000

/-- A concrete stand-in for the fee computation on the classified draft. -/
def sampleEstimatedFees : Transaction → Int := fun _ => 21

/-- A concrete stand-in for the chain's address-format test. -/
def sampleIsValidAddress : JsStr → Bool := fun _ => true

/-! ### Claim C7 — the pipeline mutates the caller's draft -/

/-- A legacy draft carrying a `gasPrice`, handed to a fee-market network. -/
def c7Draft : Transaction :=
  { family := "evm".data, mode := "send".data, recipient := "0xdest".data
    amount := 3, useAllAmount := false, subAccountId := none
    chainId := 1, nonce := 0, gasLimit := 21, feesStrategy := none
    type := some (JsNum.num 0), data := none
    gasPrice := some 5, maxFeePerGas := none, maxPriorityFeePerGas := none }

/-- The account used in the C7 counterexample. -/
def c7Acct : Account := { freshAddress := "0xme".data, balance := 100, subAccounts := [] }

/-- The fee snapshot used in the C7 counterexample. -/
def c7Fd : FeeData := { gasPrice := some 3, maxFeePerGas := some 7, maxPriorityFeePerGas := some 1 }

/-- C7 (counterexample): `prepareTransaction` does mutate the transaction
value passed in — classification runs `delete transaction.gasPrice` on the
caller's object, so after the call the input draft no longer holds the
fields it held before. -/
theorem c7_mutation_counterexample :
    c7Draft.gasPrice = some 5 ∧
    (prepareTransactionMut sampleEncode sampleGasEstimation sampleEstimatedFees
        sampleIsValidAddress c7Fd c7Acct c7Draft).2.gasPrice = none ∧
    (prepareTransactionMut sampleEncode sampleGasEstimation sampleEstimatedFees
        sampleIsValidAddress c7Fd c7Acct c7Draft).2 ≠ c7Draft := by decide

/-- C7 (amended): the only mutation of the caller's draft is the in-place
deletion performed by fee classification: after `prepareTransaction` the
input object equals the draft with its `gasPrice` removed (fee-market case)
or with its `maxFeePerGas` and `maxPriorityFeePerGas` removed (legacy case);
every other field is unchanged, and no later pipeline step mutates it. -/
theorem c7_classification_mutates_input (tx : Transaction) (fd : FeeData)
    (encodeFunctionData : JsStr → Int → JsStr)
    (getGasEstimation : Account → Transaction → Int)
    (getEstimatedFees : Transaction → Int) (isValidAddress : JsStr → Bool)
    (account : Account) :
    (getTypedTransactionMut tx fd).2 =
      (if fd.maxFeePerGas.isSome && fd.maxPriorityFeePerGas.isSome then
        { tx with gasPrice := none }
      else { tx with maxFeePerGas := none, maxPriorityFeePerGas := none }) ∧
    (prepareTransactionMut encodeFunctionData getGasEstimation getEstimatedFees
        isValidAddress fd account tx).2 = (getTypedTransactionMut tx fd).2 := by
  constructor
  · by_cases h : (fd.maxFeePerGas.isSome && fd.maxPriorityFeePerGas.isSome) = true <;>
      simp [getTypedTransactionMut, h]
  · rfl

/-! ### Claim C2 — behaviour on validation failure -/

/-- The account for the C2 counterexample: balance 10. -/
def c2Acct : Account := { freshAddress := "0xme".data, balance := 10, subAccounts := [] }

/-- A draft spending far more than the balance, with a legacy `gasPrice`. -/
def c2Draft : Transaction :=
  { family := "evm".data, mode := "send".data, recipient := "0xdest".data
    amount := 100, useAllAmount := false, subAccountId := none
    chainId := 1, nonce := 0, gasLimit := 21, feesStrategy := none
    type := some (JsNum.num 0), data := none
    gasPrice := some 5, maxFeePerGas := none, maxPriorityFeePerGas := none }

/-- The fee snapshot for the C2 counterexample: fee-market fields present. -/
def c2Fd : FeeData := { gasPrice := some 3, maxFeePerGas := some 7, maxPriorityFeePerGas := some 1 }

/-- C2 (counterexample): for this draft the amount validation fails (100 + 21
exceeds the balance 10), yet `prepareTransaction` does not return the
original input draft field-for-field: it returns the classified transaction,
whose fee fields and `type` differ from the draft's. -/
theorem c2_unchanged_draft_counterexample :
    (validateAmount c2Acct.balance
        { getTypedTransaction c2Draft c2Fd with amount := c2Draft.amount }
        (c2Draft.amount + sampleEstimatedFees (getTypedTransaction c2Draft c2Fd))).length ≠ 0 ∧
    prepareTransaction sampleEncode sampleGasEstimation sampleEstimatedFees
        sampleIsValidAddress c2Fd c2Acct c2Draft ≠ c2Draft ∧
    prepareTransaction sampleEncode sampleGasEstimation sampleEstimatedFees
        sampleIsValidAddress c2Fd c2Acct c2Draft = getTypedTransaction c2Draft c2Fd := by
  decide

/-- C2 (amended): validation failures are not raised — the pipeline is a
total function returning a transaction — and on validation failure each
prepare path returns its `typedTransaction` input unmodified, i.e.
`prepareTransaction` returns the classified draft
`getTypedTransaction draft feeData` (not the original draft, whose fee
fields were rewritten — and which classification mutated in place). -/
theorem c2_validation_failure_returns_classified
    (encodeFunctionData : JsStr → Int → JsStr)
    (getGasEstimation : Account → Transaction → Int)
    (getEstimatedFees : Transaction → Int) (isValidAddress : JsStr → Bool)
    (feeData : FeeData) (account : Account) (tokenAccount : SubAccount)
    (typedTransaction transaction : Transaction) :
    ((validateAmount account.balance
          { typedTransaction with amount :=
              if typedTransaction.useAllAmount then
                account.balance - getEstimatedFees typedTransaction
              else typedTransaction.amount }
          ((if typedTransaction.useAllAmount then
              account.balance - getEstimatedFees typedTransaction
            else typedTransaction.amount) + getEstimatedFees typedTransaction)).length ≠ 0 ∨
        (validateRecipient isValidAddress account typedTransaction).length ≠ 0 →
      prepareCoinTransaction getGasEstimation getEstimatedFees isValidAddress account
        typedTransaction = typedTransaction) ∧
    ((validateAmount tokenAccount.balance { typedTransaction with amount := 0 }
          (if typedTransaction.useAllAmount then tokenAccount.balance
           else typedTransaction.amount)).length ≠ 0 ∨
        (validateRecipient isValidAddress account
          { typedTransaction with amount := 0 }).length ≠ 0 →
      prepareTokenTransaction encodeFunctionData getGasEstimation isValidAddress account
        tokenAccount typedTransaction = typedTransaction) ∧
    (findSubAccountById account (transaction.subAccountId.getD []) = none →
      prepareTransaction encodeFunctionData getGasEstimation getEstimatedFees isValidAddress
          feeData account transaction
        = prepareCoinTransaction getGasEstimation getEstimatedFees isValidAddress account
            (getTypedTransaction transaction feeData)) := by
  refine ⟨?_, ?_, ?_⟩
  · intro h
    simp only [prepareCoinTransaction]
    rw [if_pos h]
  · intro h
    simp only [prepareTokenTransaction]
    rw [if_pos h]
  · intro h
    simp only [prepareTransaction, h]

/-- A classified fee-market draft used by the C2 witness. -/
def c2TypedW : Transaction :=
  { c2Draft with
    type := some (JsNum.num 2)
    gasPrice := none
    maxFeePerGas := some 7
    maxPriorityFeePerGas := some 1 }

/-- A token sub-account with zero balance used by the C2 witness. -/
def c2TokW : SubAccount :=
  { id := "sub1".data, saType := "TokenAccount".data, balance := 0
    tokenContractAddress := "0xtoken".data }

theorem c2_validation_failure_witness :
    prepareCoinTransaction sampleGasEstimation sampleEstimatedFees sampleIsValidAddress
        c2Acct c2TypedW = c2TypedW ∧
    prepareTokenTransaction sampleEncode sampleGasEstimation sampleIsValidAddress
        c2Acct c2TokW c2TypedW = c2TypedW ∧
    prepareTransaction sampleEncode sampleGasEstimation sampleEstimatedFees
        sampleIsValidAddress c2Fd c2Acct c2Draft
      = prepareCoinTransaction sampleGasEstimation sampleEstimatedFees sampleIsValidAddress
          c2Acct (getTypedTransaction c2Draft c2Fd) :=
  ⟨(c2_validation_failure_returns_classified sampleEncode sampleGasEstimation
      sampleEstimatedFees sampleIsValidAddress c2Fd c2Acct c2TokW c2TypedW c2Draft).1
      (by decide),
   (c2_validation_failure_returns_classified sampleEncode sampleGasEstimation
      sampleEstimatedFees sampleIsValidAddress c2Fd c2Acct c2TokW c2TypedW c2Draft).2.1
      (by decide),
   (c2_validation_failure_returns_classified sampleEncode sampleGasEstimation
      sampleEstimatedFees sampleIsValidAddress c2Fd c2Acct c2TokW c2TypedW c2Draft).2.2
      (by decide)⟩

/-! ### Claim C4 — `useAllAmount` on the coin path -/

/-- The account for C4: balance 100. -/
def c4Acct : Account := { freshAddress := "0xme".data, balance := 100, subAccounts := [] }

/-- A `useAllAmount` classified draft with an empty recipient. -/
def c4Typed : Transaction :=
  { family := "evm".data, mode := "send".data, recipient := []
    amount := 7, useAllAmount := true, subAccountId := none
    chainId := 1, nonce := 0, gasLimit := 21, feesStrategy := none
    type := some (JsNum.num 0), data := none
    gasPrice := some 5, maxFeePerGas := none, maxPriorityFeePerGas := none }

/-- C4 (counterexample): the claim quantifies over every coin-path prepare
with `useAllAmount` set, but when recipient validation fails the function
returns the input unchanged, so the resulting amount is the draft's amount
(7), not balance minus fee (100 − 21 = 79). -/
theorem c4_use_all_amount_counterexample :
    c4Typed.useAllAmount = true ∧
    (prepareCoinTransaction sampleGasEstimation sampleEstimatedFees sampleIsValidAddress
        c4Acct c4Typed).amount ≠ c4Acct.balance - sampleEstimatedFees c4Typed ∧
    (prepareCoinTransaction sampleGasEstimation sampleEstimatedFees sampleIsValidAddress
        c4Acct c4Typed).amount + sampleEstimatedFees c4Typed ≠ c4Acct.balance := by
  decide

/-- C4 (amended): on every coin-path prepare with `useAllAmount` set whose
recipient validation passes (the amount validation is then automatically
empty, since the total spend equals the balance exactly), the resulting
amount equals balance minus the estimated fee of the classified transaction,
and amount plus fee equals the balance exactly, in exact arbitrary-precision
arithmetic. -/
theorem c4_use_all_amount_coin
    (getGasEstimation : Account → Transaction → Int)
    (getEstimatedFees : Transaction → Int) (isValidAddress : JsStr → Bool)
    (account : Account) (typedTransaction : Transaction)
    (hall : typedTransaction.useAllAmount = true)
    (hrec : validateRecipient isValidAddress account typedTransaction = []) :
    (prepareCoinTransaction getGasEstimation getEstimatedFees isValidAddress account
        typedTransaction).amount = account.balance - getEstimatedFees typedTransaction ∧
    (prepareCoinTransaction getGasEstimation getEstimatedFees isValidAddress account
        typedTransaction).amount + getEstimatedFees typedTransaction = account.balance := by
  have hAmt : validateAmount account.balance
      { typedTransaction with
        amount := account.balance - getEstimatedFees typedTransaction
        useAllAmount := true } account.balance = [] := by
    unfold validateAmount
    rw [if_neg (by omega), if_neg (by simp)]
  have key : (prepareCoinTransaction getGasEstimation getEstimatedFees isValidAddress account
      typedTransaction).amount = account.balance - getEstimatedFees typedTransaction := by
    simp only [prepareCoinTransaction, hall]
    simp [hrec, hAmt]
  exact ⟨key, by omega⟩

/-- A `useAllAmount` classified draft with a valid recipient, for the C4
witness. -/
def c4TypedW : Transaction := { c4Typed with recipient := "0xdest".data }

theorem c4_use_all_amount_witness :
    (prepareCoinTransaction sampleGasEstimation sampleEstimatedFees sampleIsValidAddress
        c4Acct c4TypedW).amount = c4Acct.balance - sampleEstimatedFees c4TypedW ∧
    (prepareCoinTransaction sampleGasEstimation sampleEstimatedFees sampleIsValidAddress
        c4Acct c4TypedW).amount + sampleEstimatedFees c4TypedW = c4Acct.balance :=
  c4_use_all_amount_coin sampleGasEstimation sampleEstimatedFees sampleIsValidAddress
    c4Acct c4TypedW (by decide) (by decide)

/-! ### Claim C5 — `useAllAmount` on the token path -/

/-- The token sub-account for C5: balance 50. -/
def c5Tok : SubAccount :=
  { id := "sub1".data, saType := "TokenAccount".data, balance := 50
    tokenContractAddress := "0xtoken".data }

/-- The base account for C5. -/
def c5Acct : Account := { freshAddress := "0xme".data, balance := 100, subAccounts := [c5Tok] }

/-- A `useAllAmount` token draft whose amount field holds 7. -/
def c5Typed : Transaction :=
  { family := "evm".data, mode := "send".data, recipient := "0xdest".data
    amount := 7, useAllAmount := true, subAccountId := some "sub1".data
    chainId := 1, nonce := 0, gasLimit := 21, feesStrategy := none
    type := some (JsNum.num 0), data := none
    gasPrice := some 5, maxFeePerGas := none, maxPriorityFeePerGas := none }

/-- C5 (counterexample): a token-path prepare with `useAllAmount` set that
passes both validations, yet the resulting transaction's `amount` field is
the draft's 7, not the token balance 50 — the success branch returns
`{ ...typedTransaction, data, gasLimit }`, leaving `amount` untouched; the
token balance flows only into the encoded calldata. -/
theorem c5_use_all_amount_counterexample :
    c5Typed.useAllAmount = true ∧
    (validateRecipient sampleIsValidAddress c5Acct { c5Typed with amount := 0 }).length = 0 ∧
    (validateAmount c5Tok.balance { c5Typed with amount := 0 } c5Tok.balance).length = 0 ∧
    (prepareTokenTransaction sampleEncode sampleGasEstimation sampleIsValidAddress
        c5Acct c5Tok c5Typed).amount ≠ c5Tok.balance := by
  decide

/-- C5 (amended): on every token-path prepare with `useAllAmount` set whose
recipient validation passes (the amount validation is then automatically
empty), the full token balance is used as the transfer amount in the encoded
calldata, while the transaction's own `amount` field keeps the draft's
value; the base account's balance does not enter the amount calculation:
changing it changes neither the branch taken nor the resulting payload. -/
theorem c5_use_all_amount_token
    (encodeFunctionData : JsStr → Int → JsStr)
    (getGasEstimation : Account → Transaction → Int) (isValidAddress : JsStr → Bool)
    (account : Account) (tokenAccount : SubAccount) (typedTransaction : Transaction)
    (hall : typedTransaction.useAllAmount = true)
    (hrec : validateRecipient isValidAddress account
      { typedTransaction with amount := 0 } = []) :
    (prepareTokenTransaction encodeFunctionData getGasEstimation isValidAddress account
        tokenAccount typedTransaction).amount = typedTransaction.amount ∧
    (prepareTokenTransaction encodeFunctionData getGasEstimation isValidAddress account
        tokenAccount typedTransaction).data
      = getTransactionData encodeFunctionData
          { typedTransaction with amount := tokenAccount.balance } ∧
    (∀ b : Int,
      (prepareTokenTransaction encodeFunctionData getGasEstimation isValidAddress
          { account with balance := b } tokenAccount typedTransaction).data
        = (prepareTokenTransaction encodeFunctionData getGasEstimation isValidAddress
            account tokenAccount typedTransaction).data) := by
  have hAmt : validateAmount tokenAccount.balance
      { typedTransaction with amount := 0, useAllAmount := true }
      tokenAccount.balance = [] := by
    unfold validateAmount
    rw [if_neg (by omega), if_neg (by simp)]
  have key : ∀ acc : Account,
      validateRecipient isValidAddress acc { typedTransaction with amount := 0 } = [] →
      prepareTokenTransaction encodeFunctionData getGasEstimation isValidAddress acc
          tokenAccount typedTransaction
        = { typedTransaction with
            data := getTransactionData encodeFunctionData
              { typedTransaction with amount := tokenAccount.balance }
            gasLimit := getGasEstimation acc
              { typedTransaction with
                recipient := tokenAccount.tokenContractAddress
                data := getTransactionData encodeFunctionData
                  { typedTransaction with amount := tokenAccount.balance } } } := by
    intro acc hr
    rw [hall] at hr
    simp only [prepareTokenTransaction, hall]
    simp [hr, hAmt]
  have hmain := key account hrec
  refine ⟨?_, ?_, ?_⟩
  · rw [hmain]
  · rw [hmain]
  · intro b
    rw [hmain, key { account with balance := b } hrec]

theorem c5_use_all_amount_witness :
    (prepareTokenTransaction sampleEncode sampleGasEstimation sampleIsValidAddress
        c5Acct c5Tok c5Typed).amount = c5Typed.amount ∧
    (prepareTokenTransaction sampleEncode sampleGasEstimation sampleIsValidAddress
        c5Acct c5Tok c5Typed).data
      = getTransactionData sampleEncode { c5Typed with amount := c5Tok.balance } :=
  ⟨(c5_use_all_amount_token sampleEncode sampleGasEstimation sampleIsValidAddress
      c5Acct c5Tok c5Typed (by decide) (by decide)).1,
   (c5_use_all_amount_token sampleEncode sampleGasEstimation sampleIsValidAddress
      c5Acct c5Tok c5Typed (by decide) (by decide)).2.1⟩

/-! ### Claim C8 — prepare-for-signing recipient rewrite -/

/-- C8: for a transaction whose `subAccountId` resolves to a `TokenAccount`
sub-account, `prepareForSignOperation` rewrites only the recipient to the
token contract address; in every other case it returns the input transaction
with all fields unchanged. -/
theorem c8_prepare_for_sign_operation (account : Account) (tx : Transaction) :
    (∀ sa, findSubAccountById account (tx.subAccountId.getD []) = some sa →
      (sa.saType = tokenAccountType →
        prepareForSignOperation account tx = { tx with recipient := sa.tokenContractAddress }) ∧
      (sa.saType ≠ tokenAccountType → prepareForSignOperation account tx = tx)) ∧
    (findSubAccountById account (tx.subAccountId.getD []) = none →
      prepareForSignOperation account tx = tx) := by
  constructor
  · intro sa hfind
    constructor <;> intro hty <;> simp [prepareForSignOperation, hfind, hty]
  · intro hfind
    simp [prepareForSignOperation, hfind]

/-- The token sub-account for the C8 witness. -/
def c8Tok : SubAccount :=
  { id := "sub8".data, saType := "TokenAccount".data, balance := 50
    tokenContractAddress := "0xtoken".data }

/-- The account for the C8 witness. -/
def c8Acct : Account := { freshAddress := "0xme".data, balance := 100, subAccounts := [c8Tok] }

/-- A token transaction for the C8 witness. -/
def c8Tx : Transaction :=
  { family := "evm".data, mode := "send".data, recipient := "0xdest".data
    amount := 3, useAllAmount := false, subAccountId := some "sub8".data
    chainId := 1, nonce := 0, gasLimit := 21, feesStrategy := none
    type := some (JsNum.num 0), data := none
    gasPrice := some 5, maxFeePerGas := none, maxPriorityFeePerGas := none }

theorem c8_prepare_for_sign_operation_witness :
    prepareForSignOperation c8Acct c8Tx = { c8Tx with recipient := c8Tok.tokenContractAddress } ∧
    prepareForSignOperation c8Acct { c8Tx with subAccountId := none }
      = { c8Tx with subAccountId := none } :=
  ⟨((c8_prepare_for_sign_operation c8Acct c8Tx).1 c8Tok (by decide)).1 (by decide),
   (c8_prepare_for_sign_operation c8Acct { c8Tx with subAccountId := none }).2 (by decide)⟩

/-! ### Claim C9 — dispatch to the coin path -/

/-- A `TokenAccount` sub-account whose id is the empty string. -/
def c9EmptyIdTok : SubAccount :=
  { id := [], saType := "TokenAccount".data, balance := 50
    tokenContractAddress := "0xtoken".data }

/-- An account holding a token sub-account with empty id. -/
def c9Acct : Account :=
  { freshAddress := "0xme".data, balance := 100, subAccounts := [c9EmptyIdTok] }

/-- A draft with no `subAccountId` at all. -/
def c9Draft : Transaction :=
  { family := "evm".data, mode := "send".data, recipient := "0xdest".data
    amount := 5, useAllAmount := false, subAccountId := none
    chainId := 1, nonce := 0, gasLimit := 21, feesStrategy := none
    type := some (JsNum.num 0), data := none
    gasPrice := some 5, maxFeePerGas := none, maxPriorityFeePerGas := none }

/-- The fee snapshot for the C9 counterexample. -/
def c9Fd : FeeData := { gasPrice := some 3, maxFeePerGas := none, maxPriorityFeePerGas := none }

/-- C9 (counterexample): an absent `subAccountId` is defaulted to the empty
string before the sub-account lookup, so on an account holding a
`TokenAccount` sub-account whose id is the empty string the token path is
taken even though `subAccountId` is absent. -/
theorem c9_coin_dispatch_counterexample :
    c9Draft.subAccountId = none ∧
    prepareTransaction sampleEncode sampleGasEstimation sampleEstimatedFees
        sampleIsValidAddress c9Fd c9Acct c9Draft
      ≠ prepareCoinTransaction sampleGasEstimation sampleEstimatedFees sampleIsValidAddress
          c9Acct (getTypedTransaction c9Draft c9Fd) := by
  decide

/-- C9 (amended): whenever the `subAccountId` (defaulted to the empty string
when absent) does not resolve to a sub-account of type `TokenAccount`,
`prepareTransaction` takes the coin path; in particular an absent or empty
`subAccountId` takes the coin path provided no sub-account of the account
has the empty string as its id. -/
theorem c9_coin_dispatch
    (encodeFunctionData : JsStr → Int → JsStr)
    (getGasEstimation : Account → Transaction → Int)
    (getEstimatedFees : Transaction → Int) (isValidAddress : JsStr → Bool)
    (feeData : FeeData) (account : Account) (tx : Transaction) :
    ((∀ sa, findSubAccountById account (tx.subAccountId.getD []) = some sa →
        sa.saType ≠ tokenAccountType) →
      prepareTransaction encodeFunctionData getGasEstimation getEstimatedFees isValidAddress
          feeData account tx
        = prepareCoinTransaction getGasEstimation getEstimatedFees isValidAddress account
            (getTypedTransaction tx feeData)) ∧
    ((∀ sa ∈ account.subAccounts, sa.id ≠ []) →
      (tx.subAccountId = none ∨ tx.subAccountId = some ([] : JsStr)) →
      prepareTransaction encodeFunctionData getGasEstimation getEstimatedFees isValidAddress
          feeData account tx
        = prepareCoinTransaction getGasEstimation getEstimatedFees isValidAddress account
            (getTypedTransaction tx feeData)) := by
  have main : (∀ sa, findSubAccountById account (tx.subAccountId.getD []) = some sa →
      sa.saType ≠ tokenAccountType) →
      prepareTransaction encodeFunctionData getGasEstimation getEstimatedFees isValidAddress
          feeData account tx
        = prepareCoinTransaction getGasEstimation getEstimatedFees isValidAddress account
            (getTypedTransaction tx feeData) := by
    intro h
    cases hfind : findSubAccountById account (tx.subAccountId.getD []) with
    | none => simp [prepareTransaction, hfind]
    | some sa => simp [prepareTransaction, hfind, h sa hfind]
  refine ⟨main, fun hids hsub => main ?_⟩
  intro sa hfind
  have hgetD : tx.subAccountId.getD [] = [] := by
    rcases hsub with h | h <;> rw [h] <;> rfl
  rw [hgetD] at hfind
  rw [findSubAccountById, find?_none_of_no_empty_id account.subAccounts hids] at hfind
  exact absurd hfind (by simp)

/-- An account with only a non-empty-id token sub-account, for the C9
witness. -/
def c9AcctW : Account :=
  { freshAddress := "0xme".data, balance := 100
    subAccounts := [{ id := "sub9".data, saType := "TokenAccount".data, balance := 50
                      tokenContractAddress := "0xtoken".data }] }

theorem c9_coin_dispatch_witness :
    prepareTransaction sampleEncode sampleGasEstimation sampleEstimatedFees
        sampleIsValidAddress c9Fd c9AcctW c9Draft
      = prepareCoinTransaction sampleGasEstimation sampleEstimatedFees sampleIsValidAddress
          c9AcctW (getTypedTransaction c9Draft c9Fd) :=
  (c9_coin_dispatch sampleEncode sampleGasEstimation sampleEstimatedFees
      sampleIsValidAddress c9Fd c9AcctW c9Draft).2 (by decide) (Or.inl rfl)

end LedgerEvm
